import Mathlib

/-
Verification of the compas_occ binding layer.

The repository is a thin Python binding over the OpenCASCADE (OCC) kernel.
This development shallowly embeds the repository's own code:
  - src/compas_occ/conversions/primitives.py  (primitive conversion layer)
  - src/compas_occ/brep/brep.py               (BRep container)
  - src/compas_occ/geometry/surfaces/bspline.py (B-spline surface wrapper)
Real numbers of the host geometry model are embedded as rationals; the
external kernel's own operations (sewing, fixing, boolean algorithms,
surface evaluation) are parameters of the embedding, since they are not
code of this repository.
-/

namespace CompasOcc

/-! ## Primitive conversion layer: host (COMPAS) plain types over ℚ -/

/-- Host point (compas.geometry.Point): three coordinates. -/
structure CPoint where
  x : ℚ
  y : ℚ
  z : ℚ
  deriving DecidableEq, Repr

/-- Host vector (compas.geometry.Vector): three components. -/
structure CVector where
  x : ℚ
  y : ℚ
  z : ℚ
  deriving DecidableEq, Repr

/-- Host line (compas.geometry.Line): start and end point. -/
structure CLine where
  start : CPoint
  endpt : CPoint
  deriving DecidableEq, Repr

/-- The direction of a host line, the vector from start to end.
The host library returns this vector normalised; normalisation leaves ℚ
and is re-applied by the kernel's direction constructor anyway, so the
embedding keeps the unnormalised components. -/
def CLine.direction (l : CLine) : CVector :=
  ⟨l.endpt.x - l.start.x, l.endpt.y - l.start.y, l.endpt.z - l.start.z⟩

/-- Host plane (compas.geometry.Plane): base point and normal. -/
structure CPlane where
  point : CPoint
  normal : CVector
  deriving DecidableEq, Repr

/-- Host circle (compas.geometry.Circle): plane and radius. -/
structure CCircle where
  plane : CPlane
  radius : ℚ
  deriving DecidableEq, Repr

/-- Host sphere (compas.geometry.Sphere): center point and radius. -/
structure CSphere where
  point : CPoint
  radius : ℚ
  deriving DecidableEq, Repr

/-- Host cylinder (compas.geometry.Cylinder): base circle and height. -/
structure CCylinder where
  circle : CCircle
  height : ℚ
  deriving DecidableEq, Repr

/-- The plane of a host cylinder is the plane of its circle. -/
def CCylinder.plane (c : CCylinder) : CPlane := c.circle.plane

/-- Host cone (compas.geometry.Cone): base circle and height. -/
structure CCone where
  circle : CCircle
  height : ℚ
  deriving DecidableEq, Repr

/-- The plane of a host cone is the plane of its circle. -/
def CCone.plane (c : CCone) : CPlane := c.circle.plane

/-- Host torus (compas.geometry.Torus): plane, axis radius, pipe radius. -/
structure CTorus where
  plane : CPlane
  radius_axis : ℚ
  radius_pipe : ℚ
  deriving DecidableEq, Repr

/-! ## Kernel-side native structures (gp_*) as records of the data the
binding hands to the kernel constructors. -/

/-- Kernel point gp_Pnt, with its X/Y/Z queries as fields. -/
structure GpPnt where
  X : ℚ
  Y : ℚ
  Z : ℚ
  deriving DecidableEq, Repr

/-- Kernel vector gp_Vec. -/
structure GpVec where
  X : ℚ
  Y : ℚ
  Z : ℚ
  deriving DecidableEq, Repr

/-- Kernel direction gp_Dir. The kernel unit-normalises the components on
construction, so the X/Y/Z queries of the real gp_Dir return the unitized
vector; normalisation leaves ℚ and is not modelled — this record stores the
components as passed, and no theorem in this file reads the stored
components of a GpDir back. -/
structure GpDir where
  X : ℚ
  Y : ℚ
  Z : ℚ
  deriving DecidableEq, Repr

/-- Kernel axis gp_Ax1: location and direction. -/
structure GpAx1 where
  Location : GpPnt
  Direction : GpDir
  deriving DecidableEq, Repr

/-- Kernel right-handed frame gp_Ax2: location, main (z) direction, and,
when the three-argument constructor is used, the requested x direction
(the two-argument constructor lets the kernel pick one). -/
structure GpAx2 where
  Location : GpPnt
  Direction : GpDir
  XDirectionArg : Option GpDir
  deriving DecidableEq, Repr

/-- Kernel coordinate system gp_Ax3: location and main direction as passed
to the two-argument constructor. -/
structure GpAx3 where
  Location : GpPnt
  Direction : GpDir
  deriving DecidableEq, Repr

/-- Kernel line gp_Lin: location and direction. -/
structure GpLin where
  Location : GpPnt
  Direction : GpDir
  deriving DecidableEq, Repr

/-- Kernel plane gp_Pln: location and normal direction. -/
structure GpPln where
  Location : GpPnt
  Axis : GpDir
  deriving DecidableEq, Repr

/-- Kernel circle gp_Circ: position and radius. -/
structure GpCirc where
  Position : GpAx2
  Radius : ℚ
  deriving DecidableEq, Repr

/-- Kernel sphere gp_Sphere: position and radius. -/
structure GpSphere where
  Position : GpAx3
  Radius : ℚ
  deriving DecidableEq, Repr

/-- Kernel cylinder gp_Cylinder: position and radius. -/
structure GpCylinder where
  Position : GpAx3
  Radius : ℚ
  deriving DecidableEq, Repr

/-- Kernel cone gp_Cone as the binding constructs it: position and radius. -/
structure GpCone where
  Position : GpAx3
  Radius : ℚ
  deriving DecidableEq, Repr

/-- Kernel torus gp_Torus: position, major radius, minor radius. -/
structure GpTorus where
  Position : GpAx3
  MajorRadius : ℚ
  MinorRadius : ℚ
  deriving DecidableEq, Repr

/-! ## The conversion functions of conversions/primitives.py -/

/-- primitives.py line 30: `compas_point_to_occ_point` returns `gp_Pnt(*self)`. -/
def compas_point_to_occ_point (self : CPoint) : GpPnt :=
  ⟨self.x, self.y, self.z⟩

/-- primitives.py line 54: `compas_point_from_occ_point` returns
`cls(point.X(), point.Y(), point.Z())`. -/
def compas_point_from_occ_point (point : GpPnt) : CPoint :=
  ⟨point.X, point.Y, point.Z⟩

/-- primitives.py line 72: `compas_vector_to_occ_vector` returns `gp_Vec(*self)`. -/
def compas_vector_to_occ_vector (self : CVector) : GpVec :=
  ⟨self.x, self.y, self.z⟩

/-- primitives.py line 96: `compas_vector_from_occ_vector` returns
`cls(vector.X(), vector.Y(), vector.Z())`. -/
def compas_vector_from_occ_vector (vector : GpVec) : CVector :=
  ⟨vector.X, vector.Y, vector.Z⟩

/-- primitives.py line 114: `compas_vector_to_occ_direction` returns `gp_Dir(*self)`. -/
def compas_vector_to_occ_direction (self : CVector) : GpDir :=
  ⟨self.x, self.y, self.z⟩

/-- primitives.py line 138: `compas_vector_from_occ_direction` returns
`cls(vector.X(), vector.Y(), vector.Z())`. In the program these queries
return gp_Dir's unit-normalised components; the GpDir embedding does not
model that normalisation, so no theorem states anything about the values
this function returns. -/
def compas_vector_from_occ_direction (vector : GpDir) : CVector :=
  ⟨vector.X, vector.Y, vector.Z⟩

/-- primitives.py line 156: `compas_axis_to_occ_axis` builds the gp_Ax1 from
the converted point and direction. -/
def compas_axis_to_occ_axis (axis : CPoint × CVector) : GpAx1 :=
  ⟨compas_point_to_occ_point axis.1, compas_vector_to_occ_direction axis.2⟩

/-- primitives.py line 183: `compas_axis_from_occ_axis` converts location and
direction back. -/
def compas_axis_from_occ_axis (axis : GpAx1) : CPoint × CVector :=
  (compas_point_from_occ_point axis.Location,
   compas_vector_from_occ_direction axis.Direction)

/-- primitives.py line 201: `compas_line_to_occ_line` builds the gp_Lin from
the converted start point and direction. -/
def compas_line_to_occ_line (self : CLine) : GpLin :=
  ⟨compas_point_to_occ_point self.start,
   compas_vector_to_occ_direction self.direction⟩

/-- primitives.py line 228: `compas_plane_to_occ_plane` builds the gp_Pln
from the converted base point and normal. -/
def compas_plane_to_occ_plane (plane : CPlane) : GpPln :=
  ⟨compas_point_to_occ_point plane.point,
   compas_vector_to_occ_direction plane.normal⟩

/-- primitives.py line 247: `compas_plane_to_occ_ax2` uses the two-argument
gp_Ax2 constructor (no explicit x direction). -/
def compas_plane_to_occ_ax2 (plane : CPlane) : GpAx2 :=
  ⟨compas_point_to_occ_point plane.point,
   compas_vector_to_occ_direction plane.normal, none⟩

/-- primitives.py line 266: `compas_plane_to_occ_ax3`. -/
def compas_plane_to_occ_ax3 (plane : CPlane) : GpAx3 :=
  ⟨compas_point_to_occ_point plane.point,
   compas_vector_to_occ_direction plane.normal⟩

/-- Host frame (compas.geometry.Frame): point and two in-plane axes. -/
structure CFrame where
  point : CPoint
  xaxis : CVector
  yaxis : CVector
  deriving DecidableEq, Repr

/-- primitives.py line 285: `compas_frame_from_occ_position` builds the host
frame from a gp_Ax3's location, XDirection and YDirection. The embedding of
gp_Ax3 records the data the binding passes in; its derived X/Y directions are
kernel-computed, so they are parameters here. -/
def compas_frame_from_occ_position (xdir ydir : GpAx3 → GpDir)
    (position : GpAx3) : CFrame :=
  ⟨compas_point_from_occ_point position.Location,
   compas_vector_from_occ_direction (xdir position),
   compas_vector_from_occ_direction (ydir position)⟩

/-- primitives.py line 307: `compas_circle_to_occ_circle`. -/
def compas_circle_to_occ_circle (circle : CCircle) : GpCirc :=
  ⟨compas_plane_to_occ_ax2 circle.plane, circle.radius⟩

/-- primitives.py line 323: `compas_sphere_to_occ_sphere` uses the plane
through the sphere's center with normal (0, 0, 1). -/
def compas_sphere_to_occ_sphere (sphere : CSphere) : GpSphere :=
  ⟨compas_plane_to_occ_ax3 ⟨sphere.point, ⟨0, 0, 1⟩⟩, sphere.radius⟩

/-- primitives.py line 340: `compas_cylinder_to_occ_cylinder`. -/
def compas_cylinder_to_occ_cylinder (cylinder : CCylinder) : GpCylinder :=
  ⟨compas_plane_to_occ_ax3 cylinder.plane, cylinder.circle.radius⟩

/-- primitives.py line 356: `compas_cone_to_occ_cone`. -/
def compas_cone_to_occ_cone (cone : CCone) : GpCone :=
  ⟨compas_plane_to_occ_ax3 cone.plane, cone.circle.radius⟩

/-- primitives.py line 372: `compas_torus_to_occ_torus`. -/
def compas_torus_to_occ_torus (torus : CTorus) : GpTorus :=
  ⟨compas_plane_to_occ_ax3 torus.plane, torus.radius_axis, torus.radius_pipe⟩

/-! ## Inventory of the conversion layer

The nine generic primitive types named by the spec, and which directions of
conversion `conversions/primitives.py` defines for each. -/

/-- The nine generic primitive types of the spec sentence. -/
inductive PrimType where
  | point | vector | line | plane | circle | sphere | cylinder | cone | torus
  deriving DecidableEq, Repr, Fintype

/-- Whether primitives.py defines a conversion from the generic type to the
kernel's native equivalent. All nine are present:
`compas_point_to_occ_point`, `compas_vector_to_occ_vector` (and
`compas_vector_to_occ_direction`), `compas_line_to_occ_line`,
`compas_plane_to_occ_plane` (and `..._ax2`, `..._ax3`),
`compas_circle_to_occ_circle`, `compas_sphere_to_occ_sphere`,
`compas_cylinder_to_occ_cylinder`, `compas_cone_to_occ_cone`,
`compas_torus_to_occ_torus`. -/
def hasToOcc : PrimType → Bool
  | .point => true
  | .vector => true
  | .line => true
  | .plane => true
  | .circle => true
  | .sphere => true
  | .cylinder => true
  | .cone => true
  | .torus => true

/-- Whether primitives.py defines a conversion from the kernel's native
structure back to the generic type. Only `compas_point_from_occ_point` and
`compas_vector_from_occ_vector` / `compas_vector_from_occ_direction` exist
(besides axis and frame, which are not among the nine); there is no
`compas_line_from_occ_line`, `compas_plane_from_occ_plane`,
`compas_circle_from_occ_circle`, `compas_sphere_from_occ_sphere`,
`compas_cylinder_from_occ_cylinder`, `compas_cone_from_occ_cone` or
`compas_torus_from_occ_torus` anywhere in the module. -/
def hasFromOcc : PrimType → Bool
  | .point => true
  | .vector => true
  | .line => false
  | .plane => false
  | .circle => false
  | .sphere => false
  | .cylinder => false
  | .cone => false
  | .torus => false

/-! ## Topological model of TopoDS shapes

The BRep container only ever reads sub-shapes of its owned handle through
TopExp_Explorer and hands the handle to kernel operations, so shapes are
embedded as the topological containment tree the explorer walks. Curve data,
surface data and vertex points are opaque to every line of brep.py; they are
type parameters C, S, P. -/

/-- A kernel vertex (TopoDS_Vertex): carries a point. -/
structure OCCVertex (P : Type) where
  point : P
  deriving DecidableEq, Repr

/-- A kernel edge (TopoDS_Edge): carries a curve and its vertices.
`curve` is what the edge wrapper's `nurbscurve` serialises to. -/
structure OCCEdge (C P : Type) where
  curve : C
  vertices : List (OCCVertex P)
  deriving DecidableEq, Repr

/-- A kernel wire (TopoDS_Wire): an ordered list of edges. -/
structure OCCWire (C P : Type) where
  edges : List (OCCEdge C P)
  deriving DecidableEq, Repr

/-- A kernel face (TopoDS_Face): a surface and the wires (loops) on it;
the first wire is the outer boundary. `surface` is what the face wrapper's
`nurbssurface` serialises to. -/
structure OCCFace (C S P : Type) where
  surface : S
  wires : List (OCCWire C P)
  deriving DecidableEq, Repr

/-- The shape kinds (TopAbs_ShapeEnum values) the container code observes. -/
inductive ShapeEnum where
  | vertex | edge | wire | face | shell | solid | compound
  deriving DecidableEq, Repr

/-- A kernel shape (TopoDS_Shape): the containment tree the explorer walks.
Shells and solids hold faces; compounds are kernel-produced aggregates of
faces (the results of boolean operations are opaque shapes of this grammar). -/
inductive TopoShape (C S P : Type) where
  | vertex : OCCVertex P → TopoShape C S P
  | edge : OCCEdge C P → TopoShape C S P
  | wire : OCCWire C P → TopoShape C S P
  | face : OCCFace C S P → TopoShape C S P
  | shell : List (OCCFace C S P) → TopoShape C S P
  | solid : List (OCCFace C S P) → TopoShape C S P
  deriving DecidableEq, Repr

variable {C S P : Type}

/-- `shape.ShapeType()`. -/
def TopoShape.shapeType : TopoShape C S P → ShapeEnum
  | .vertex _ => .vertex
  | .edge _ => .edge
  | .wire _ => .wire
  | .face _ => .face
  | .shell _ => .shell
  | .solid _ => .solid

/-- The faces TopExp_Explorer(shape, TopAbs_FACE) enumerates, in order. -/
def TopoShape.exploreFaces : TopoShape C S P → List (OCCFace C S P)
  | .vertex _ => []
  | .edge _ => []
  | .wire _ => []
  | .face f => [f]
  | .shell fs => fs
  | .solid fs => fs

/-- The wires TopExp_Explorer(shape, TopAbs_WIRE) enumerates, in order. -/
def TopoShape.exploreWires : TopoShape C S P → List (OCCWire C P)
  | .vertex _ => []
  | .edge _ => []
  | .wire w => [w]
  | .face f => f.wires
  | .shell fs => fs.flatMap (fun f => f.wires)
  | .solid fs => fs.flatMap (fun f => f.wires)

/-- The edges TopExp_Explorer(shape, TopAbs_EDGE) enumerates, in order. -/
def TopoShape.exploreEdges (sh : TopoShape C S P) : List (OCCEdge C P) :=
  match sh with
  | .vertex _ => []
  | .edge e => [e]
  | _ => sh.exploreWires.flatMap (fun w => w.edges)

/-- The vertices TopExp_Explorer(shape, TopAbs_VERTEX) enumerates, in order. -/
def TopoShape.exploreVertices (sh : TopoShape C S P) : List (OCCVertex P) :=
  match sh with
  | .vertex v => [v]
  | _ => sh.exploreEdges.flatMap (fun e => e.vertices)

/-! ## The kernel operations brep.py delegates to

These live in OpenCASCADE, not in this repository; they are parameters of
the embedding, collected in one record. -/

/-- The kernel entry points used by brep.py: BRepBuilderAPI_Sewing
(Load/Perform/SewedShape), ShapeFix_Shell (Perform/Shell), BRepAlgoAPI_Fuse /
Cut / Common as pairs (IsDone, Shape), BRepPrimAPI_MakeBox / MakeSphere /
MakeCylinder, and the face validity check / face fixer used by the face
wrapper. -/
structure Kernel (C S P : Type) where
  sew : TopoShape C S P → TopoShape C S P
  fixShell : TopoShape C S P → TopoShape C S P
  isValidFace : OCCFace C S P → Bool
  fixFace : OCCFace C S P → OCCFace C S P
  fuse : TopoShape C S P → TopoShape C S P → Bool × TopoShape C S P
  cut : TopoShape C S P → TopoShape C S P → Bool × TopoShape C S P
  common : TopoShape C S P → TopoShape C S P → Bool × TopoShape C S P
  makeBox : GpAx2 → ℚ → ℚ → ℚ → TopoShape C S P
  makeSphere : GpPnt → ℚ → TopoShape C S P
  makeCylinder : GpAx2 → ℚ → ℚ → TopoShape C S P

/-! ## Wrapper classes

BRepVertex, BRepEdge, BRepLoop, BRepFace and the NURBS geometry wrappers are
code of this repository that is not under src; the spec describes them as
"thin object wrappers that expose kernel entities (vertex, edge, loop/wire,
face, shell/solid) with convenience accessors" and serialisation to/from a
generic data dictionary. -/

/-- Modelled from the spec: BRepVertex, a thin wrapper holding the kernel
vertex. -/
structure BRepVertex (P : Type) where
  occ_vertex : OCCVertex P
  deriving DecidableEq, Repr

/-- Modelled from the spec: BRepEdge, a thin wrapper holding the kernel edge;
`nurbscurve.data` of the wrapper is the edge's curve data. -/
structure BRepEdge (C P : Type) where
  occ_edge : OCCEdge C P
  deriving DecidableEq, Repr

/-- Modelled from the spec: BRepLoop, a thin wrapper holding the kernel wire. -/
structure BRepLoop (C P : Type) where
  occ_wire : OCCWire C P
  deriving DecidableEq, Repr

/-- Modelled from the spec: BRepFace, a thin wrapper holding the kernel face. -/
structure BRepFace (C S P : Type) where
  occ_face : OCCFace C S P
  deriving DecidableEq, Repr

/-- Modelled from the spec: `BRepEdge.from_curve` wraps a curve as an edge
whose underlying curve is exactly that curve (serialisation is pass-through,
so the curve is identified with its data dictionary). -/
def BRepEdge.from_curve (c : C) : OCCEdge C P :=
  ⟨c, []⟩

/-- Modelled from the spec: `BRepLoop.from_edges` assembles the given edges,
in order, into a wire. -/
def BRepLoop.from_edges (edges : List (OCCEdge C P)) : OCCWire C P :=
  ⟨edges⟩

/-- Modelled from the spec: `BRepFace.from_surface(surface, loop=loop)` builds
a face on the surface whose single (outer) wire is the given loop. -/
def BRepFace.from_surface (s : S) (loop : OCCWire C P) : OCCFace C S P :=
  ⟨s, [loop]⟩

/-- Modelled from the spec: the `loops` accessor of a face wrapper exposes the
face's wires as loop wrappers. -/
def BRepFace.loops (f : OCCFace C S P) : List (OCCWire C P) :=
  f.wires

/-! ## The BRep container (brep.py) -/

/-- The BRep container: `__init__` sets `_occ_shape = None`; constructors
assign the owned kernel shape handle. -/
structure BRep (C S P : Type) where
  occ_shape : Option (TopoShape C S P)
  deriving DecidableEq, Repr

/-- brep.py line 749 `BRep.sew`: if the shape has more than one face, replace
the owned shape by the kernel sewer's SewedShape; otherwise do nothing. -/
def brepSew (K : Kernel C S P) (sh : TopoShape C S P) : TopoShape C S P :=
  if 1 < sh.exploreFaces.length then K.sew sh else sh

/-- brep.py line 763 `BRep.fix`: if the owned shape is a shell, replace it by
the kernel shape-fixer's Shell; otherwise do nothing. -/
def brepFix (K : Kernel C S P) (sh : TopoShape C S P) : TopoShape C S P :=
  if sh.shapeType = ShapeEnum.shell then K.fixShell sh else sh

/-- brep.py line 514 `BRep.from_faces`: build a shell from the faces (fixing
each invalid one first), then sew, then fix. -/
def brepFromFacesShape (K : Kernel C S P) (faces : List (OCCFace C S P)) :
    TopoShape C S P :=
  let faces := faces.map (fun f => if K.isValidFace f then f else K.fixFace f)
  brepFix K (brepSew K (TopoShape.shell faces))

/-- `BRep.from_faces` as a constructor returning the container. -/
def BRep.from_faces (K : Kernel C S P) (faces : List (OCCFace C S P)) :
    BRep C S P :=
  ⟨some (brepFromFacesShape K faces)⟩

/-! ## Serialisation (`data` getter and setter, brep.py lines 144-187) -/

/-- One entry of the `faces` list of the data dictionary. -/
structure FaceData (C S : Type) where
  boundary : List C
  surface : S
  holes : List (List C)
  deriving DecidableEq, Repr

/-- The data dictionary of a BRep. -/
structure BRepData (C S : Type) where
  faces : List (FaceData C S)
  deriving DecidableEq, Repr

/-- The entry the data getter records for one face: the curve data of the
edges of the face's first loop as boundary, always-empty holes (the loop over
`face.loops[1:]` has an empty body), and the face's surface data. `none` if
the face has no loop (`face.loops[0]` raises). -/
def faceRecord (f : OCCFace C S P) : Option (FaceData C S) :=
  match f.wires.head? with
  | none => none
  | some w => some ⟨w.edges.map (fun e => e.curve), f.surface, []⟩

/-- The getter's loop over `self.faces`, appending one record per face;
an exception in any iteration aborts the whole computation. -/
def recordsOfFaces : List (OCCFace C S P) → Option (List (FaceData C S))
  | [] => some []
  | f :: rest =>
    match faceRecord f, recordsOfFaces rest with
    | some fd, some fds => some (fd :: fds)
    | _, _ => none

/-- brep.py line 144: the `data` getter. -/
def brepDataGet (sh : TopoShape C S P) : Option (BRepData C S) :=
  (recordsOfFaces sh.exploreFaces).map BRepData.mk

/-- brep.py line 159: the body of the `data` setter for one face entry:
surface from its data, one edge per boundary curve, the loop from those
edges, the face from surface and loop; the loop over `facedata["holes"]` has
an empty body. -/
def faceFromData (fd : FaceData C S) : OCCFace C S P :=
  BRepFace.from_surface fd.surface
    (BRepLoop.from_edges (fd.boundary.map (fun c => BRepEdge.from_curve c)))

/-- brep.py line 159: the `data` setter: rebuild one face per entry and
assign `BRep.from_faces(faces).occ_shape`. -/
def brepDataSet (K : Kernel C S P) (d : BRepData C S) : TopoShape C S P :=
  brepFromFacesShape K (d.faces.map faceFromData)

/-! ## Boolean constructors (brep.py lines 556-617) and operators (193-239)

Object identity matters to the claims ("a new BRep object, distinct from A
and B", "A and B are left unchanged"), so BRep objects live in an explicit
store: a list of owned shapes, a BRep being an index into it. Allocating a
fresh object (`cls()` followed by the `occ_shape` assignment) appends. -/

/-- The store of live BRep objects: the owned shape of each, by object. -/
abbrev BRepStore (C S P : Type) := List (TopoShape C S P)

/-- Shared shape of the three boolean constructors: look up both operands'
owned shapes, run the kernel operator, raise if it is not done, otherwise
allocate a new BRep owning the kernel's result shape. Returns the outcome
(new object, or the exception message) together with the updated store. -/
def booleanConstructor (op : TopoShape C S P → TopoShape C S P → Bool × TopoShape C S P)
    (msg : String) (store : BRepStore C S P) (ia ib : Nat) :
    Except String Nat × BRepStore C S P :=
  match (store : List (TopoShape C S P))[ia]?, (store : List (TopoShape C S P))[ib]? with
  | some sA, some sB =>
    let r := op sA sB
    if r.1 then (Except.ok (List.length store), store ++ [r.2])
    else (Except.error msg, store)
  | _, _ => (Except.error "AttributeError", store)

/-- brep.py line 598 `BRep.from_boolean_union`: BRepAlgoAPI_Fuse on the two
owned shapes; raise if not IsDone; else a new BRep owning fuse.Shape(). -/
def from_boolean_union (K : Kernel C S P) (store : BRepStore C S P)
    (ia ib : Nat) : Except String Nat × BRepStore C S P :=
  booleanConstructor K.fuse "Boolean union operation could not be completed." store ia ib

/-- brep.py line 556 `BRep.from_boolean_difference`: BRepAlgoAPI_Cut. -/
def from_boolean_difference (K : Kernel C S P) (store : BRepStore C S P)
    (ia ib : Nat) : Except String Nat × BRepStore C S P :=
  booleanConstructor K.cut "Boolean difference operation could not be completed." store ia ib

/-- brep.py line 577 `BRep.from_boolean_intersection`: BRepAlgoAPI_Common. -/
def from_boolean_intersection (K : Kernel C S P) (store : BRepStore C S P)
    (ia ib : Nat) : Except String Nat × BRepStore C S P :=
  booleanConstructor K.common "Boolean intersection operation could not be completed." store ia ib

/-- brep.py line 193: `__add__` returns `BRep.from_boolean_union(self, other)`. -/
def brepAdd (K : Kernel C S P) (store : BRepStore C S P) (ia ib : Nat) :
    Except String Nat × BRepStore C S P :=
  from_boolean_union K store ia ib

/-- brep.py line 209: `__sub__` returns `BRep.from_boolean_difference(self, other)`. -/
def brepSub (K : Kernel C S P) (store : BRepStore C S P) (ia ib : Nat) :
    Except String Nat × BRepStore C S P :=
  from_boolean_difference K store ia ib

/-- brep.py line 225: `__and__` returns `BRep.from_boolean_intersection(self, other)`. -/
def brepAnd (K : Kernel C S P) (store : BRepStore C S P) (ia ib : Nat) :
    Except String Nat × BRepStore C S P :=
  from_boolean_intersection K store ia ib

/-! ## Remaining constructors of claim C5 -/

/-- Modelled from the spec: the polygon-to-face helpers `triangle_to_face`,
`quad_to_face` and `ngon_to_face` of compas_occ.conversions are not under
src; per the spec they translate a plain polygon into a kernel face. -/
structure FaceConv (C S P : Type) where
  triangleToFace : List P → OCCFace C S P
  quadToFace : List P → OCCFace C S P
  ngonToFace : List P → OCCFace C S P

/-- The shared shell-building loop of `from_polygons` and `from_mesh`: one
face per polygon, by the triangle / quad / ngon branch on the point count. -/
def shellOfPolygons (fc : FaceConv C S P) (polygons : List (List P)) :
    TopoShape C S P :=
  TopoShape.shell (polygons.map (fun points =>
    if points.length = 3 then fc.triangleToFace points
    else if points.length = 4 then fc.quadToFace points
    else fc.ngonToFace points))

/-- brep.py line 344 `BRep.from_polygons`: build the shell, assign it as the
owned shape, sew, fix. -/
def BRep.from_polygons (K : Kernel C S P) (fc : FaceConv C S P)
    (polygons : List (List P)) : BRep C S P :=
  ⟨some (brepFix K (brepSew K (shellOfPolygons fc polygons)))⟩

/-- brep.py line 484 `BRep.from_mesh`: identical to `from_polygons` over the
face coordinate lists of the mesh (a mesh is embedded as that list of
per-face coordinate lists, the only view of it the code reads). -/
def BRep.from_mesh (K : Kernel C S P) (fc : FaceConv C S P)
    (meshFaceCoords : List (List P)) : BRep C S P :=
  ⟨some (brepFix K (brepSew K (shellOfPolygons fc meshFaceCoords)))⟩

/-- Host box (compas.geometry.Box): frame and three sizes. -/
structure CBox where
  frame : CFrame
  xsize : ℚ
  ysize : ℚ
  zsize : ℚ
  deriving DecidableEq, Repr

/-- Cross product of two vectors. -/
def CVector.cross (v w : CVector) : CVector :=
  ⟨v.y * w.z - v.z * w.y, v.z * w.x - v.x * w.z, v.x * w.y - v.y * w.x⟩

/-- The z axis of a host frame, derived from its two stored axes (the host
library returns it normalised; the two stored axes being orthonormal there,
the cross product is the same vector). -/
def CFrame.zaxis (fr : CFrame) : CVector :=
  fr.xaxis.cross fr.yaxis

/-- Scale a vector (compas `Vector.scaled`). -/
def CVector.scaled (v : CVector) (f : ℚ) : CVector :=
  ⟨v.x * f, v.y * f, v.z * f⟩

/-- Vector addition. -/
def CVector.add (v w : CVector) : CVector :=
  ⟨v.x + w.x, v.y + w.y, v.z + w.z⟩

/-- Translate a point by a vector (the effect on the frame origin of
`transformed(Translation.from_vector(v))`, a pure translation). -/
def CPoint.translated (p : CPoint) (v : CVector) : CPoint :=
  ⟨p.x + v.x, p.y + v.y, p.z + v.z⟩

/-- brep.py line 388 `BRep.from_box`: shift the box frame by half the sizes
along the negated axes, build the gp_Ax2 from the shifted origin with the
frame's z and x axes, and own BRepPrimAPI_MakeBox(ax2, xsize, ysize,
zsize).Shape(). -/
def BRep.from_box (K : Kernel C S P) (box : CBox) : BRep C S P :=
  let xaxis := box.frame.xaxis.scaled (-(1/2) * box.xsize)
  let yaxis := box.frame.yaxis.scaled (-(1/2) * box.ysize)
  let zaxis := box.frame.zaxis.scaled (-(1/2) * box.zsize)
  let origin := box.frame.point.translated ((xaxis.add yaxis).add zaxis)
  let ax2 : GpAx2 :=
    ⟨compas_point_to_occ_point origin,
     compas_vector_to_occ_direction box.frame.zaxis,
     some (compas_vector_to_occ_direction box.frame.xaxis)⟩
  ⟨some (K.makeBox ax2 box.xsize box.ysize box.zsize)⟩

/-- brep.py line 412 `BRep.from_sphere`: own BRepPrimAPI_MakeSphere(gp_Pnt(*
sphere.point), sphere.radius).Shape(). -/
def BRep.from_sphere (K : Kernel C S P) (sphere : CSphere) : BRep C S P :=
  ⟨some (K.makeSphere (compas_point_to_occ_point sphere.point) sphere.radius)⟩

/-- brep.py line 431 `BRep.from_cylinder`: frame from the cylinder's plane
(`Frame.from_plane` is host-library code, a parameter here), shifted by half
the height against the frame z axis; own BRepPrimAPI_MakeCylinder(ax2,
radius, height).Shape(). -/
def BRep.from_cylinder (K : Kernel C S P)
    (frameFromPlane : CPlane → CFrame)
    (cylinder : CCylinder) : BRep C S P :=
  let fr := frameFromPlane cylinder.plane
  let point := fr.point.translated (fr.zaxis.scaled (-(1/2) * cylinder.height))
  let ax2 : GpAx2 :=
    ⟨compas_point_to_occ_point point,
     compas_vector_to_occ_direction fr.zaxis,
     some (compas_vector_to_occ_direction fr.xaxis)⟩
  ⟨some (K.makeCylinder ax2 cylinder.circle.radius cylinder.height)⟩

/-! ## Traversal properties (brep.py lines 278-316)

The Python properties run a fresh TopExp_Explorer over the owned shape in a
More/Current/Next while-loop, wrapping each enumerated sub-shape; they only
read the handle. Each is embedded as a state function returning the list and
the (possibly updated) owned shape. -/

/-- The explorer while-loop: `while explorer.More(): wrap(explorer.Current());
explorer.Next()`, with the explorer's remaining enumeration as the cursor. -/
def explorerLoop (wrap : α → β) : List α → List β
  | [] => []
  | current :: rest => wrap current :: explorerLoop wrap rest

/-- brep.py line 278: the `vertices` property. -/
def brepVertices (sh : TopoShape C S P) :
    List (BRepVertex P) × TopoShape C S P :=
  (explorerLoop BRepVertex.mk sh.exploreVertices, sh)

/-- brep.py line 288: the `edges` property. -/
def brepEdges (sh : TopoShape C S P) :
    List (BRepEdge C P) × TopoShape C S P :=
  (explorerLoop BRepEdge.mk sh.exploreEdges, sh)

/-- brep.py line 298: the `loops` property. -/
def brepLoops (sh : TopoShape C S P) :
    List (BRepLoop C P) × TopoShape C S P :=
  (explorerLoop BRepLoop.mk sh.exploreWires, sh)

/-- brep.py line 308: the `faces` property. -/
def brepFaces (sh : TopoShape C S P) :
    List (BRepFace C S P) × TopoShape C S P :=
  (explorerLoop BRepFace.mk sh.exploreFaces, sh)

/-! ## The B-spline surface wrapper (geometry/surfaces/bspline.py)

The wrapper owns a Geom_BSplineSurface handle and reads it through the
kernel queries Poles / UKnots / VKnots / UMultiplicities / VMultiplicities /
UDegree / VDegree / Bounds / IsUPeriodic / IsVPeriodic / Value / D1. The
handle is embedded as the record of those queries' answers (evaluation is a
function of the parameters). -/

/-- The owned Geom_BSplineSurface handle, as the answers of the kernel
queries the wrapper reads. -/
structure GeomBSplineSurface where
  Poles : List (List GpPnt)
  UKnots : List ℚ
  VKnots : List ℚ
  UMultiplicities : List ℤ
  VMultiplicities : List ℤ
  UDegree : ℤ
  VDegree : ℤ
  Bounds : ℚ × ℚ × ℚ × ℚ
  IsUPeriodic : Bool
  IsVPeriodic : Bool
  Value : ℚ → ℚ → GpPnt
  D1 : ℚ → ℚ → GpPnt × GpVec × GpVec

/-- The wrapper object: owns the kernel surface handle. -/
structure BSplineSurface where
  occ_surface : GeomBSplineSurface

/-- Modelled from the spec: `points2_from_array2` of compas_occ.interop (not
under src) translates a two-dimensional kernel point array into the host
representation, one host point per kernel point. -/
def points2_from_array2 (arr : List (List GpPnt)) : List (List CPoint) :=
  arr.map (fun row => row.map compas_point_from_occ_point)

/-- bspline.py line 294: the `occ_poles` property, `self.occ_surface.Poles()`. -/
def BSplineSurface.occ_poles (s : BSplineSurface) : List (List GpPnt) :=
  s.occ_surface.Poles

/-- bspline.py line 298: the `occ_u_knots` property. -/
def BSplineSurface.occ_u_knots (s : BSplineSurface) : List ℚ :=
  s.occ_surface.UKnots

/-- bspline.py line 302: the `occ_v_knots` property. -/
def BSplineSurface.occ_v_knots (s : BSplineSurface) : List ℚ :=
  s.occ_surface.VKnots

/-- bspline.py line 306: the `occ_u_mults` property. -/
def BSplineSurface.occ_u_mults (s : BSplineSurface) : List ℤ :=
  s.occ_surface.UMultiplicities

/-- bspline.py line 310: the `occ_v_mults` property. -/
def BSplineSurface.occ_v_mults (s : BSplineSurface) : List ℤ :=
  s.occ_surface.VMultiplicities

/-- bspline.py line 317: the `poles` property, converting `occ_poles` to host
points; returns the value and the wrapper as left by the read. -/
def BSplineSurface.poles (s : BSplineSurface) :
    List (List CPoint) × BSplineSurface :=
  (points2_from_array2 s.occ_poles, s)

/-- bspline.py line 321: the `u_knots` property, returning `occ_u_knots`. -/
def BSplineSurface.u_knots (s : BSplineSurface) : List ℚ × BSplineSurface :=
  (s.occ_u_knots, s)

/-- bspline.py line 325: the `v_knots` property. -/
def BSplineSurface.v_knots (s : BSplineSurface) : List ℚ × BSplineSurface :=
  (s.occ_v_knots, s)

/-- bspline.py line 329: the `u_mults` property. -/
def BSplineSurface.u_mults (s : BSplineSurface) : List ℤ × BSplineSurface :=
  (s.occ_u_mults, s)

/-- bspline.py line 333: the `v_mults` property. -/
def BSplineSurface.v_mults (s : BSplineSurface) : List ℤ × BSplineSurface :=
  (s.occ_v_mults, s)

/-- bspline.py line 337: the `u_degree` property, `self.occ_surface.UDegree()`. -/
def BSplineSurface.u_degree (s : BSplineSurface) : ℤ × BSplineSurface :=
  (s.occ_surface.UDegree, s)

/-- bspline.py line 341: the `v_degree` property. -/
def BSplineSurface.v_degree (s : BSplineSurface) : ℤ × BSplineSurface :=
  (s.occ_surface.VDegree, s)

/-- bspline.py line 345: the `u_domain` property, the first two components of
`self.occ_surface.Bounds()`. -/
def BSplineSurface.u_domain (s : BSplineSurface) : (ℚ × ℚ) × BSplineSurface :=
  ((s.occ_surface.Bounds.1, s.occ_surface.Bounds.2.1), s)

/-- bspline.py line 350: the `v_domain` property, the last two components of
`self.occ_surface.Bounds()`. -/
def BSplineSurface.v_domain (s : BSplineSurface) : (ℚ × ℚ) × BSplineSurface :=
  ((s.occ_surface.Bounds.2.2.1, s.occ_surface.Bounds.2.2.2), s)

/-- bspline.py line 355: the `is_u_periodic` property. -/
def BSplineSurface.is_u_periodic (s : BSplineSurface) : Bool × BSplineSurface :=
  (s.occ_surface.IsUPeriodic, s)

/-- bspline.py line 359: the `is_v_periodic` property. -/
def BSplineSurface.is_v_periodic (s : BSplineSurface) : Bool × BSplineSurface :=
  (s.occ_surface.IsVPeriodic, s)

/-! ## Evaluation and intersection (bspline.py lines 394-412) -/

/-- bspline.py line 403 `point_at`: `self.occ_surface.Value(u, v)` converted
by `Point.from_occ` (which is `compas_point_from_occ_point`, see the module
preamble of bspline.py). -/
def BSplineSurface.point_at (s : BSplineSurface) (u v : ℚ) : CPoint :=
  compas_point_from_occ_point (s.occ_surface.Value u v)

/-- The host frame built by `frame_at`: point and two axes. -/
structure CEvalFrame where
  point : CPoint
  xaxis : CVector
  yaxis : CVector
  deriving DecidableEq, Repr

/-- bspline.py line 407 `frame_at`: the kernel writes point and the two first
derivatives through `D1(u, v, point, uvec, vvec)`; the frame is built from
their conversions. -/
def BSplineSurface.frame_at (s : BSplineSurface) (u v : ℚ) : CEvalFrame :=
  let r := s.occ_surface.D1 u v
  ⟨compas_point_from_occ_point r.1,
   compas_vector_from_occ_vector r.2.1,
   compas_vector_from_occ_vector r.2.2⟩

/-- The GeomAPI_IntCS result object: its NbPoints() many intersection points,
`Point(i)` being 1-indexed. -/
structure IntCSResult where
  pts : List GpPnt

/-- `intersection.NbPoints()`. -/
def IntCSResult.NbPoints (r : IntCSResult) : Nat := r.pts.length

/-- `intersection.Point(i)`, 1-indexed; the kernel call is only valid for
1 ≤ i ≤ NbPoints, which is how bspline.py calls it. -/
def IntCSResult.PointAt (r : IntCSResult) (i : Nat) : GpPnt :=
  r.pts.getD (i - 1) ⟨0, 0, 0⟩

/-- bspline.py line 394 `intersections`: run GeomAPI_IntCS on the
Geom_Line of the converted line and the owned surface (the kernel algorithm
is the parameter `intCS`), then collect `Point(index + 1)` for `index` in
`range(NbPoints())`, each converted by `Point.from_occ`. -/
def BSplineSurface.intersections
    (intCS : GpLin → GeomBSplineSurface → IntCSResult)
    (s : BSplineSurface) (line : CLine) : List CPoint :=
  let intersection := intCS (compas_line_to_occ_line line) s.occ_surface
  (List.range intersection.NbPoints).map (fun index =>
    compas_point_from_occ_point (intersection.PointAt (index + 1)))

/-! ## Helper lemmas -/

/-- The data the getter reads from one face: the curve data of the first
wire's edges (none when the face has no wire) and the surface data. -/
def faceKey (f : OCCFace C S P) : Option (List C) × S :=
  (f.wires.head?.map (fun w => w.edges.map (fun e => e.curve)), f.surface)

theorem faceRecord_congr {f g : OCCFace C S P} (h : faceKey f = faceKey g) :
    faceRecord f = faceRecord g := by
  unfold faceKey at h
  obtain ⟨h1, h2⟩ := Prod.mk.injEq .. ▸ h
  unfold faceRecord
  cases hf : f.wires.head? with
  | none =>
    rw [hf] at h1
    cases hg : g.wires.head? with
    | none => rfl
    | some w => rw [hg] at h1; simp at h1
  | some w =>
    rw [hf] at h1
    cases hg : g.wires.head? with
    | none => rw [hg] at h1; simp at h1
    | some w' =>
      rw [hg] at h1
      simp only [Option.map_some', Option.some_inj] at h1
      rw [h2]
      simp [h1]

theorem recordsOfFaces_congr {fs gs : List (OCCFace C S P)}
    (h : fs.map faceKey = gs.map faceKey) :
    recordsOfFaces fs = recordsOfFaces gs := by
  induction fs generalizing gs with
  | nil =>
    cases gs with
    | nil => rfl
    | cons g gs => simp at h
  | cons f fs ih =>
    cases gs with
    | nil => simp at h
    | cons g gs =>
      simp only [List.map_cons, List.cons.injEq] at h
      unfold recordsOfFaces
      rw [faceRecord_congr h.1, ih h.2]

theorem recordsOfFaces_holes {fs : List (OCCFace C S P)}
    {fds : List (FaceData C S)} (h : recordsOfFaces fs = some fds) :
    ∀ fd ∈ fds, fd.holes = [] := by
  induction fs generalizing fds with
  | nil =>
    simp only [recordsOfFaces] at h
    cases h
    intro fd hfd
    simp at hfd
  | cons f fs ih =>
    unfold recordsOfFaces at h
    cases hf : faceRecord f with
    | none => rw [hf] at h; simp at h
    | some fd₀ =>
      rw [hf] at h
      cases hr : recordsOfFaces fs with
      | none => rw [hr] at h; simp at h
      | some fds₀ =>
        rw [hr] at h
        simp only [Option.some_inj] at h
        subst h
        intro fd hfd
        rcases List.mem_cons.mp hfd with h' | h'
        · subst h'
          unfold faceRecord at hf
          cases hw : f.wires.head? with
          | none => rw [hw] at hf; cases hf
          | some w => rw [hw] at hf; cases hf; rfl
        · exact ih hr fd h'

theorem recordsOfFaces_spec {fs : List (OCCFace C S P)}
    {fds : List (FaceData C S)} (h : recordsOfFaces fs = some fds) :
    List.Forall₂ (fun (f : OCCFace C S P) (fd : FaceData C S) =>
      fd.holes = [] ∧ ∃ w, f.wires.head? = some w ∧
        fd.boundary = w.edges.map (fun e => e.curve) ∧ fd.surface = f.surface)
      fs fds := by
  induction fs generalizing fds with
  | nil =>
    simp only [recordsOfFaces] at h
    cases h
    exact List.Forall₂.nil
  | cons f fs ih =>
    unfold recordsOfFaces at h
    cases hf : faceRecord f with
    | none => rw [hf] at h; simp at h
    | some fd₀ =>
      rw [hf] at h
      cases hr : recordsOfFaces fs with
      | none => rw [hr] at h; simp at h
      | some fds₀ =>
        rw [hr] at h
        simp only [Option.some_inj] at h
        subst h
        refine List.Forall₂.cons ?_ (ih hr)
        unfold faceRecord at hf
        cases hw : f.wires.head? with
        | none => rw [hw] at hf; cases hf
        | some w =>
          rw [hw] at hf
          cases hf
          exact ⟨rfl, w, rfl, rfl, rfl⟩

theorem faceRecord_faceFromData (fd : FaceData C S) :
    faceRecord (@faceFromData C S P fd) =
      some ⟨fd.boundary, fd.surface, []⟩ := by
  unfold faceRecord faceFromData BRepFace.from_surface BRepLoop.from_edges
  simp [BRepEdge.from_curve, List.map_map, Function.comp_def]

theorem recordsOfFaces_faceFromData (l : List (FaceData C S)) :
    recordsOfFaces (l.map (@faceFromData C S P)) =
      some (l.map (fun fd => ⟨fd.boundary, fd.surface, []⟩)) := by
  induction l with
  | nil => rfl
  | cons fd l ih =>
    simp only [List.map_cons]
    unfold recordsOfFaces
    rw [faceRecord_faceFromData, ih]

theorem brepSew_key {K : Kernel C S P}
    (hsew : ∀ sh : TopoShape C S P,
      (K.sew sh).exploreFaces.map faceKey = sh.exploreFaces.map faceKey)
    (sh : TopoShape C S P) :
    (brepSew K sh).exploreFaces.map faceKey = sh.exploreFaces.map faceKey := by
  unfold brepSew
  split
  · exact hsew sh
  · rfl

theorem brepFix_key {K : Kernel C S P}
    (hfix : ∀ sh : TopoShape C S P,
      (K.fixShell sh).exploreFaces.map faceKey = sh.exploreFaces.map faceKey)
    (sh : TopoShape C S P) :
    (brepFix K sh).exploreFaces.map faceKey = sh.exploreFaces.map faceKey := by
  unfold brepFix
  split
  · exact hfix sh
  · rfl

theorem explorerLoop_eq_map (f : α → β) (l : List α) :
    explorerLoop f l = l.map f := by
  induction l with
  | nil => rfl
  | cons x xs ih => simp [explorerLoop, ih]

/-! ## Claim theorems -/

/-- C2 counterexample: the conversion layer does not provide a bidirectional
mapping for every one of the nine primitive types; at the concrete type
`line` there is a conversion to the kernel's native form but none back from
it, refuting the claim that every type has both directions. -/
theorem line_conversion_not_bidirectional :
    hasToOcc PrimType.line = true ∧ hasFromOcc PrimType.line = false := by
  decide

/-- C2 (amended): the primitive conversion layer provides a conversion to the
kernel's native equivalent for all nine generic primitive types, but a
conversion back from the kernel's native structure only for point and
vector. -/
theorem conversion_layer_inventory :
    (∀ t, hasToOcc t = true) ∧
    (∀ t, hasFromOcc t = true ↔ (t = PrimType.point ∨ t = PrimType.vector)) :=
  ⟨by decide, by decide⟩

/-- C4: the `data` getter records for each face only the curve data of the
edges of that face's first loop as the boundary, and always an empty list as
the holes; inner loops are never serialised. -/
theorem data_getter_first_loop_only (sh : TopoShape C S P) (d : BRepData C S)
    (h : brepDataGet sh = some d) :
    List.Forall₂ (fun (f : OCCFace C S P) (fd : FaceData C S) =>
      fd.holes = [] ∧ ∃ w, f.wires.head? = some w ∧
        fd.boundary = w.edges.map (fun e => e.curve) ∧ fd.surface = f.surface)
      sh.exploreFaces d.faces := by
  unfold brepDataGet at h
  cases hr : recordsOfFaces sh.exploreFaces with
  | none => rw [hr] at h; cases h
  | some fds =>
    rw [hr] at h
    cases h
    exact recordsOfFaces_spec hr

/-- C6: each read accessor of the B-spline surface wrapper returns exactly
the value of the corresponding kernel query on the owned surface handle
(poles converted to host points entry by entry, the domain read off the
four-component Bounds answer) and leaves the owned handle unchanged. -/
theorem bspline_accessors_delegate (s : BSplineSurface) :
    s.poles = (s.occ_surface.Poles.map
      (fun row => row.map compas_point_from_occ_point), s) ∧
    s.u_knots = (s.occ_surface.UKnots, s) ∧
    s.v_knots = (s.occ_surface.VKnots, s) ∧
    s.u_mults = (s.occ_surface.UMultiplicities, s) ∧
    s.v_mults = (s.occ_surface.VMultiplicities, s) ∧
    s.u_degree = (s.occ_surface.UDegree, s) ∧
    s.v_degree = (s.occ_surface.VDegree, s) ∧
    s.u_domain = ((s.occ_surface.Bounds.1, s.occ_surface.Bounds.2.1), s) ∧
    s.v_domain = ((s.occ_surface.Bounds.2.2.1, s.occ_surface.Bounds.2.2.2), s) ∧
    s.is_u_periodic = (s.occ_surface.IsUPeriodic, s) ∧
    s.is_v_periodic = (s.occ_surface.IsVPeriodic, s) :=
  ⟨rfl, rfl, rfl, rfl, rfl, rfl, rfl, rfl, rfl, rfl, rfl⟩

/-- C8: `point_at` returns the kernel's evaluated point converted to a host
point, `frame_at` the frame built from the kernel's D1 evaluation, and
`intersections` exactly the kernel's reported intersection points, indices 1
through NbPoints in the kernel's order, converted to host points. -/
theorem bspline_evaluation_delegates (s : BSplineSurface) (u v : ℚ)
    (line : CLine) (intCS : GpLin → GeomBSplineSurface → IntCSResult) :
    s.point_at u v = compas_point_from_occ_point (s.occ_surface.Value u v) ∧
    s.frame_at u v =
      ⟨compas_point_from_occ_point (s.occ_surface.D1 u v).1,
       compas_vector_from_occ_vector (s.occ_surface.D1 u v).2.1,
       compas_vector_from_occ_vector (s.occ_surface.D1 u v).2.2⟩ ∧
    BSplineSurface.intersections intCS s line =
      (intCS (compas_line_to_occ_line line) s.occ_surface).pts.map
        compas_point_from_occ_point := by
  refine ⟨rfl, rfl, ?_⟩
  unfold BSplineSurface.intersections
  generalize intCS (compas_line_to_occ_line line) s.occ_surface = r
  apply List.ext_getElem
  · simp [IntCSResult.NbPoints]
  · intro i h1 h2
    simp only [List.getElem_map, List.getElem_range]
    congr 1
    simp only [IntCSResult.PointAt, Nat.add_sub_cancel]
    rw [List.getD_eq_getElem]

/-- C9: the `vertices`, `edges`, `loops` and `faces` properties each return
one wrapper per sub-shape the kernel explorer enumerates for the
corresponding kind, in enumeration order, and leave the owned shape handle
unchanged. -/
theorem traversal_properties_delegate (sh : TopoShape C S P) :
    brepVertices sh = (sh.exploreVertices.map BRepVertex.mk, sh) ∧
    brepEdges sh = (sh.exploreEdges.map BRepEdge.mk, sh) ∧
    brepLoops sh = (sh.exploreWires.map BRepLoop.mk, sh) ∧
    brepFaces sh = (sh.exploreFaces.map BRepFace.mk, sh) := by
  refine ⟨?_, ?_, ?_, ?_⟩ <;>
    simp [brepVertices, brepEdges, brepLoops, brepFaces, explorerLoop_eq_map]

/-- C10: `sew` leaves the owned shape unchanged when the BRep has at most one
face and replaces it by the kernel sewer's sewed shape otherwise; `fix`
leaves the owned shape unchanged when its type is not a shell and replaces it
by the kernel fixer's shell otherwise. -/
theorem sew_fix_conditions (K : Kernel C S P) (sh : TopoShape C S P) :
    (sh.exploreFaces.length ≤ 1 → brepSew K sh = sh) ∧
    (1 < sh.exploreFaces.length → brepSew K sh = K.sew sh) ∧
    (sh.shapeType ≠ ShapeEnum.shell → brepFix K sh = sh) ∧
    (sh.shapeType = ShapeEnum.shell → brepFix K sh = K.fixShell sh) := by
  refine ⟨fun h => ?_, fun h => ?_, fun h => ?_, fun h => ?_⟩
  · unfold brepSew; rw [if_neg (by omega)]
  · unfold brepSew; rw [if_pos h]
  · unfold brepFix; rw [if_neg h]
  · unfold brepFix; rw [if_pos h]

theorem map_strip_of_holes_nil (l : List (FaceData C S))
    (h : ∀ fd ∈ l, fd.holes = []) :
    l.map (fun fd => (⟨fd.boundary, fd.surface, []⟩ : FaceData C S)) = l := by
  induction l with
  | nil => rfl
  | cons fd l ih =>
    have h1 : fd.holes = [] := h fd (List.mem_cons_self fd l)
    simp only [List.map_cons]
    rw [ih (fun x hx => h x (List.mem_cons_of_mem fd hx))]
    obtain ⟨b, s', hs⟩ := fd
    change hs = [] at h1
    rw [h1]

/-- C1: reconstructing a BRep from the dictionary produced by the `data`
getter, via the `data` setter, yields a BRep whose `data` dictionary equals
the original one — with for each face the same boundary curve data and the
same surface data. The kernel's sewing, shell fixing and face fixing are
delegations and are assumed to preserve each face's first-loop curve data and
surface data. -/
theorem data_roundtrip (K : Kernel C S P)
    (hsew : ∀ sh : TopoShape C S P,
      (K.sew sh).exploreFaces.map faceKey = sh.exploreFaces.map faceKey)
    (hfixShell : ∀ sh : TopoShape C S P,
      (K.fixShell sh).exploreFaces.map faceKey = sh.exploreFaces.map faceKey)
    (hfixFace : ∀ f : OCCFace C S P, faceKey (K.fixFace f) = faceKey f)
    (B : TopoShape C S P) (d : BRepData C S)
    (h : brepDataGet B = some d) :
    brepDataGet (brepDataSet K d) = some d := by
  have hd : recordsOfFaces B.exploreFaces = some d.faces := by
    unfold brepDataGet at h
    cases hr : recordsOfFaces B.exploreFaces with
    | none => rw [hr] at h; cases h
    | some fds => rw [hr] at h; cases h; rfl
  have hholes : ∀ fd ∈ d.faces, fd.holes = [] := recordsOfFaces_holes hd
  have hkeys : (brepDataSet K d).exploreFaces.map faceKey =
      (d.faces.map (@faceFromData C S P)).map faceKey := by
    show (brepFix K (brepSew K (TopoShape.shell ((d.faces.map (@faceFromData C S P)).map
      (fun f => if K.isValidFace f then f else K.fixFace f))))).exploreFaces.map faceKey = _
    rw [brepFix_key hfixShell, brepSew_key hsew]
    show (((d.faces.map (@faceFromData C S P)).map
      (fun f => if K.isValidFace f then f else K.fixFace f))).map faceKey = _
    rw [List.map_map]
    apply List.map_congr_left
    intro f _
    show faceKey (if K.isValidFace f then f else K.fixFace f) = faceKey f
    split
    · rfl
    · exact hfixFace f
  unfold brepDataGet
  rw [recordsOfFaces_congr hkeys, recordsOfFaces_faceFromData,
    map_strip_of_holes_nil d.faces hholes]
  rfl

/-- C3/C7 shared specification: the result is a newly allocated object,
distinct from both operands, owning exactly the given shape, and both
operands' owned shapes are untouched. -/
def BooleanNewObject (result : Except String Nat × BRepStore C S P)
    (store : BRepStore C S P) (ia ib : Nat) (shape : TopoShape C S P) : Prop :=
  ∃ j, result.1 = Except.ok j ∧ j ≠ ia ∧ j ≠ ib ∧
    result.2[j]? = some shape ∧
    result.2[ia]? = store[ia]? ∧ result.2[ib]? = store[ib]?

theorem booleanConstructor_ok
    {op : TopoShape C S P → TopoShape C S P → Bool × TopoShape C S P}
    {msg : String} {store : BRepStore C S P} {ia ib : Nat}
    {sA sB : TopoShape C S P}
    (hA : store[ia]? = some sA) (hB : store[ib]? = some sB)
    (hdone : (op sA sB).1 = true) :
    BooleanNewObject (booleanConstructor op msg store ia ib) store ia ib
      (op sA sB).2 := by
  have hia : ia < store.length := by
    rcases Nat.lt_or_ge ia store.length with h | h
    · exact h
    · rw [List.getElem?_eq_none h] at hA; cases hA
  have hib : ib < store.length := by
    rcases Nat.lt_or_ge ib store.length with h | h
    · exact h
    · rw [List.getElem?_eq_none h] at hB; cases hB
  have hres : booleanConstructor op msg store ia ib =
      (Except.ok (List.length store), store ++ [(op sA sB).2]) := by
    simp [booleanConstructor, hA, hB, hdone]
  rw [hres]
  refine ⟨store.length, rfl, by omega, by omega, ?_, ?_, ?_⟩
  · show (store ++ [(op sA sB).2])[store.length]? = some (op sA sB).2
    rw [List.getElem?_append, if_neg (Nat.lt_irrefl _)]
    simp
  · show (store ++ [(op sA sB).2])[ia]? = store[ia]?
    rw [List.getElem?_append, if_pos hia]
  · show (store ++ [(op sA sB).2])[ib]? = store[ib]?
    rw [List.getElem?_append, if_pos hib]

/-- C3: each boolean constructor, on kernel success, returns a new BRep
object distinct from both operands whose owned shape is exactly the kernel
operator's result shape, unmodified; the `+`, `-` and `&` operators are the
same constructors. -/
theorem boolean_constructors_return_new_brep (K : Kernel C S P)
    (store : BRepStore C S P) (ia ib : Nat) (sA sB : TopoShape C S P)
    (hA : store[ia]? = some sA) (hB : store[ib]? = some sB)
    (hFuse : (K.fuse sA sB).1 = true) (hCut : (K.cut sA sB).1 = true)
    (hCommon : (K.common sA sB).1 = true) :
    BooleanNewObject (from_boolean_union K store ia ib) store ia ib
      (K.fuse sA sB).2 ∧
    BooleanNewObject (from_boolean_difference K store ia ib) store ia ib
      (K.cut sA sB).2 ∧
    BooleanNewObject (from_boolean_intersection K store ia ib) store ia ib
      (K.common sA sB).2 ∧
    brepAdd K store ia ib = from_boolean_union K store ia ib ∧
    brepSub K store ia ib = from_boolean_difference K store ia ib ∧
    brepAnd K store ia ib = from_boolean_intersection K store ia ib :=
  ⟨booleanConstructor_ok hA hB hFuse, booleanConstructor_ok hA hB hCut,
   booleanConstructor_ok hA hB hCommon, rfl, rfl, rfl⟩

theorem booleanConstructor_error
    {op : TopoShape C S P → TopoShape C S P → Bool × TopoShape C S P}
    {msg : String} {store : BRepStore C S P} {ia ib : Nat}
    {sA sB : TopoShape C S P}
    (hA : store[ia]? = some sA) (hB : store[ib]? = some sB) :
    ((∃ e, (booleanConstructor op msg store ia ib).1 = Except.error e) ↔
      (op sA sB).1 = false) ∧
    ((op sA sB).1 = false →
      booleanConstructor op msg store ia ib = (Except.error msg, store)) := by
  cases hdone : (op sA sB).1 with
  | true =>
    have hres : booleanConstructor op msg store ia ib =
        (Except.ok (List.length store), store ++ [(op sA sB).2]) := by
      simp [booleanConstructor, hA, hB, hdone]
    refine ⟨⟨?_, ?_⟩, ?_⟩
    · rintro ⟨e, he⟩
      rw [hres] at he
      cases he
    · intro hf; exact Bool.noConfusion hf
    · intro hf; exact Bool.noConfusion hf
  | false =>
    have hres : booleanConstructor op msg store ia ib = (Except.error msg, store) := by
      simp [booleanConstructor, hA, hB, hdone]
    exact ⟨⟨fun _ => rfl, fun _ => ⟨msg, by rw [hres]⟩⟩, fun _ => hres⟩

/-- C7: each boolean constructor raises exactly when the kernel operator
reports the operation is not done, and in that case no BRep is allocated and
both operands' owned shapes are untouched (the store is returned unchanged). -/
theorem boolean_constructors_error_iff (K : Kernel C S P)
    (store : BRepStore C S P) (ia ib : Nat) (sA sB : TopoShape C S P)
    (hA : store[ia]? = some sA) (hB : store[ib]? = some sB) :
    ((∃ e, (from_boolean_union K store ia ib).1 = Except.error e) ↔
      (K.fuse sA sB).1 = false) ∧
    ((K.fuse sA sB).1 = false → from_boolean_union K store ia ib =
      (Except.error "Boolean union operation could not be completed.", store)) ∧
    ((∃ e, (from_boolean_difference K store ia ib).1 = Except.error e) ↔
      (K.cut sA sB).1 = false) ∧
    ((K.cut sA sB).1 = false → from_boolean_difference K store ia ib =
      (Except.error "Boolean difference operation could not be completed.", store)) ∧
    ((∃ e, (from_boolean_intersection K store ia ib).1 = Except.error e) ↔
      (K.common sA sB).1 = false) ∧
    ((K.common sA sB).1 = false → from_boolean_intersection K store ia ib =
      (Except.error "Boolean intersection operation could not be completed.", store)) := by
  have h1 := @booleanConstructor_error C S P K.fuse
    "Boolean union operation could not be completed." store ia ib sA sB hA hB
  have h2 := @booleanConstructor_error C S P K.cut
    "Boolean difference operation could not be completed." store ia ib sA sB hA hB
  have h3 := @booleanConstructor_error C S P K.common
    "Boolean intersection operation could not be completed." store ia ib sA sB hA hB
  exact ⟨h1.1, h1.2, h2.1, h2.2, h3.1, h3.2⟩

/-- C5: each of the six constructors — from_polygons, from_mesh, from_box,
from_sphere, from_cylinder, from_faces — returns a BRep whose owned kernel
shape handle is set (non-null), the kernel primitives being total in this
embedding (success). -/
theorem constructors_set_occ_shape (K : Kernel C S P) (fc : FaceConv C S P)
    (frameFromPlane : CPlane → CFrame) (polygons meshFaceCoords : List (List P))
    (faces : List (OCCFace C S P)) (box : CBox) (sphere : CSphere)
    (cylinder : CCylinder) :
    (BRep.from_polygons K fc polygons).occ_shape.isSome = true ∧
    (BRep.from_mesh K fc meshFaceCoords).occ_shape.isSome = true ∧
    (BRep.from_box K box).occ_shape.isSome = true ∧
    (BRep.from_sphere K sphere).occ_shape.isSome = true ∧
    (BRep.from_cylinder K frameFromPlane cylinder).occ_shape.isSome = true ∧
    (BRep.from_faces K faces).occ_shape.isSome = true :=
  ⟨rfl, rfl, rfl, rfl, rfl, rfl⟩

/-! ## Concrete instances and witnesses -/

/-- A kernel whose delegated operations are identities and always succeed. -/
def idKernel : Kernel Nat Nat Nat where
  sew := id
  fixShell := id
  isValidFace := fun _ => true
  fixFace := id
  fuse := fun a _ => (true, a)
  cut := fun a _ => (true, a)
  common := fun a _ => (true, a)
  makeBox := fun _ _ _ _ => TopoShape.shell []
  makeSphere := fun _ _ => TopoShape.shell []
  makeCylinder := fun _ _ _ => TopoShape.shell []

/-- A kernel whose boolean operators report failure. -/
def failKernel : Kernel Nat Nat Nat :=
  { idKernel with
    fuse := fun _ _ => (false, TopoShape.shell [])
    cut := fun _ _ => (false, TopoShape.shell [])
    common := fun _ _ => (false, TopoShape.shell []) }

/-- A face with surface data 5 and one wire holding one edge with curve data 7. -/
def sampleFace : OCCFace Nat Nat Nat := ⟨5, [⟨[⟨7, [⟨1⟩]⟩]⟩]⟩

/-- A face with surface data 6 and one wire holding one edge with curve data 8. -/
def sampleFace2 : OCCFace Nat Nat Nat := ⟨6, [⟨[⟨8, [⟨2⟩]⟩]⟩]⟩

/-- A one-face shell. -/
def sampleShape : TopoShape Nat Nat Nat := TopoShape.shell [sampleFace]

/-- A two-face shell. -/
def sampleShape2 : TopoShape Nat Nat Nat := TopoShape.shell [sampleFace, sampleFace2]

/-- The data dictionary of `sampleShape`. -/
def sampleData : BRepData Nat Nat := ⟨[⟨[7], 5, []⟩]⟩

/-- A store holding two BRep objects. -/
def sampleStore : BRepStore Nat Nat Nat := [sampleShape, sampleShape2]

/-- A single-vertex shape. -/
def sampleVertexShape : TopoShape Nat Nat Nat := TopoShape.vertex ⟨3⟩

/-- C1 witness: the round-trip at a concrete shape and kernel. -/
theorem data_roundtrip_witness :
    brepDataGet sampleShape = some sampleData ∧
    brepDataGet (brepDataSet idKernel sampleData) = some sampleData :=
  ⟨rfl, data_roundtrip idKernel (fun _ => rfl) (fun _ => rfl) (fun _ => rfl)
    sampleShape sampleData rfl⟩

/-- C4 witness: the getter's per-face records at a concrete two-face shell. -/
theorem data_getter_first_loop_only_witness :
    brepDataGet sampleShape2 =
      some (⟨[⟨[7], 5, []⟩, ⟨[8], 6, []⟩]⟩ : BRepData Nat Nat) ∧
    List.Forall₂ (fun (f : OCCFace Nat Nat Nat) (fd : FaceData Nat Nat) =>
      fd.holes = [] ∧ ∃ w, f.wires.head? = some w ∧
        fd.boundary = w.edges.map (fun e => e.curve) ∧ fd.surface = f.surface)
      sampleShape2.exploreFaces
      (⟨[⟨[7], 5, []⟩, ⟨[8], 6, []⟩]⟩ : BRepData Nat Nat).faces :=
  ⟨rfl, data_getter_first_loop_only sampleShape2 _ rfl⟩

/-- C3 witness: the boolean constructors at a concrete store and kernel. -/
theorem boolean_constructors_witness :
    BooleanNewObject (from_boolean_union idKernel sampleStore 0 1)
      sampleStore 0 1 (idKernel.fuse sampleShape sampleShape2).2 ∧
    BooleanNewObject (from_boolean_difference idKernel sampleStore 0 1)
      sampleStore 0 1 (idKernel.cut sampleShape sampleShape2).2 ∧
    BooleanNewObject (from_boolean_intersection idKernel sampleStore 0 1)
      sampleStore 0 1 (idKernel.common sampleShape sampleShape2).2 ∧
    brepAdd idKernel sampleStore 0 1 = from_boolean_union idKernel sampleStore 0 1 ∧
    brepSub idKernel sampleStore 0 1 = from_boolean_difference idKernel sampleStore 0 1 ∧
    brepAnd idKernel sampleStore 0 1 = from_boolean_intersection idKernel sampleStore 0 1 :=
  boolean_constructors_return_new_brep idKernel sampleStore 0 1
    sampleShape sampleShape2 rfl rfl rfl rfl rfl

/-- C7 witness: the failure behaviour at a concrete store and a kernel whose
boolean operators report not-done. -/
theorem boolean_constructors_error_witness :
    ((∃ e, (from_boolean_union failKernel sampleStore 0 1).1 = Except.error e) ↔
      (failKernel.fuse sampleShape sampleShape2).1 = false) ∧
    ((failKernel.fuse sampleShape sampleShape2).1 = false →
      from_boolean_union failKernel sampleStore 0 1 =
      (Except.error "Boolean union operation could not be completed.", sampleStore)) ∧
    ((∃ e, (from_boolean_difference failKernel sampleStore 0 1).1 = Except.error e) ↔
      (failKernel.cut sampleShape sampleShape2).1 = false) ∧
    ((failKernel.cut sampleShape sampleShape2).1 = false →
      from_boolean_difference failKernel sampleStore 0 1 =
      (Except.error "Boolean difference operation could not be completed.", sampleStore)) ∧
    ((∃ e, (from_boolean_intersection failKernel sampleStore 0 1).1 = Except.error e) ↔
      (failKernel.common sampleShape sampleShape2).1 = false) ∧
    ((failKernel.common sampleShape sampleShape2).1 = false →
      from_boolean_intersection failKernel sampleStore 0 1 =
      (Except.error "Boolean intersection operation could not be completed.", sampleStore)) :=
  boolean_constructors_error_iff failKernel sampleStore 0 1
    sampleShape sampleShape2 rfl rfl

/-- C10 witness: `sew` and `fix` at a one-vertex shape (no faces, not a
shell) and at a two-face shell. -/
theorem sew_fix_conditions_witness :
    brepSew idKernel sampleVertexShape = sampleVertexShape ∧
    brepFix idKernel sampleVertexShape = sampleVertexShape ∧
    brepSew idKernel sampleShape2 = idKernel.sew sampleShape2 ∧
    brepFix idKernel sampleShape2 = idKernel.fixShell sampleShape2 :=
  ⟨(sew_fix_conditions idKernel sampleVertexShape).1 (by decide),
   (sew_fix_conditions idKernel sampleVertexShape).2.2.1 (by decide),
   (sew_fix_conditions idKernel sampleShape2).2.1 (by decide),
   (sew_fix_conditions idKernel sampleShape2).2.2.2 (by decide)⟩

end CompasOcc
